import Mathlib

/-!
Verification development for the OsmoseCracker report correlation and
emission engine.  The Python sources are shallowly embedded: the pure row
filters of the SQLite layer become Boolean filters over lists of rows, the
report-emission loop of `main` becomes an explicit fold over an issue list
with the remote reporting service abstracted as an id supply, and the
status-refresh loop becomes a fold over a keyed store.  Remote HTTP calls
are modelled as oracles (functions given as parameters), faithful to the
arguments the Python code passes them.
-/

/-- Sketch payload built by `osmosecracker_query_bduni.clustering` for the
members of a multi-member cluster (the Python dict literal with keys
`desc`, `name`, `objects[0].type`, `objects[0].geometry`,
`contexte.lat/lon/zoom`). -/
structure Sketch where
  desc : String
  name : String
  objType : String
  geometry : String
  ctxLat : String
  ctxLon : String
  zoom : String
deriving Repr, DecidableEq

/-- In-memory issue record (`osmosecracker_issue.OsmoseCrackerIssue`),
restricted to the attributes read or written by the correlation, emission
and refresh logic. -/
structure Issue where
  core_id : String
  core_lat : Int
  core_lon : Int
  core_item_id : String
  core_class_id : Int
  details_descriptionstr : String
  espaceco_theme : String
  bduni_objet_attribut_1 : String
  cluster_id : Option Int
  sketchcontent : Option Sketch
  espaceco_signalement_id : Option Int
  espaceco_signalement_status : Option String
  espaceco_signalement_status_refresh_timestamp : Option Nat
deriving Repr, DecidableEq

/-- Issue builder used for concrete evaluations: a fresh issue with the
given external key, cluster key and report reference; the other
attributes are constants irrelevant to the claims. -/
def mkIssue (cid : String) (ck : Option Int) (sid : Option Int) : Issue :=
  { core_id := cid
    core_lat := 0
    core_lon := 0
    core_item_id := "7170"
    core_class_id := 1
    details_descriptionstr := ""
    espaceco_theme := "Route"
    bduni_objet_attribut_1 := ""
    cluster_id := ck
    sketchcontent := none
    espaceco_signalement_id := sid
    espaceco_signalement_status := none
    espaceco_signalement_status_refresh_timestamp := none }

/-- Python's `str`/`format` rendering of an `Optional[str]` value: `None`
is rendered as the four-character string `"None"`.  This is exactly what
`update_signalement` does when it interpolates
`'{espaceco_signalement_status}'` into its UPDATE statement. -/
def pyStr (o : Option String) : String :=
  match o with
  | some s => s
  | none => "None"

/-- The three columns written by
`osmosecrackerDatabase.update_signalement`; `none` denotes SQL NULL. -/
structure SignalementColumns where
  espaceco_signalement_id : Option Int
  espaceco_signalement_status : Option String
  espaceco_signalement_status_refresh_timestamp : Option Nat
deriving Repr, DecidableEq

/-- One stored row of the `osmoseissue` table, restricted to the columns
the modelled operations read or write. -/
structure IssueRow where
  sig : SignalementColumns
  bduni_objet_zicad : Option Bool
deriving Repr, DecidableEq

/-- The durable store: `osmoseissue` rows keyed by `core_id`. -/
abbrev Store := List (String × IssueRow)

/-- The SET clause values produced by
`osmosecrackerDatabase.update_signalement` for a given issue.  The id is
interpolated bare (`{espaceco_signalement_id}`), the status is
interpolated inside single quotes (`'{espaceco_signalement_status}'`) so
a Python `None` becomes the SQL string literal `'None'`, never SQL NULL,
and the timestamp is rendered via `.isoformat()`.  When the id or the
timestamp is `None` the Python call fails (invalid SQL keyword `None`
resp. `AttributeError` on `.isoformat()`), modelled as `none`. -/
def update_signalement (i : Issue) : Option SignalementColumns :=
  match i.espaceco_signalement_id, i.espaceco_signalement_status_refresh_timestamp with
  | some sid, some ts =>
      some { espaceco_signalement_id := some sid
             espaceco_signalement_status := some (pyStr i.espaceco_signalement_status)
             espaceco_signalement_status_refresh_timestamp := some ts }
  | _, _ => none

/-- Effect of the UPDATE ... WHERE core_id = k on the store: every row
whose key matches receives the new signalement columns; other columns
(the zicad flag) are untouched; no row is inserted. -/
def applyWrite (store : Store) (k : String) (cols : SignalementColumns) : Store :=
  store.map (fun row => if row.1 = k then (row.1, { row.2 with sig := cols }) else row)

/-- `OC_UNCLOSED_STATUSES` from `osmosecracker_config.py`. -/
def OC_UNCLOSED_STATUSES : List String := ["valid", "valid0", "reject", "reject0"]

/-- Row filter of `get_issues_by_espacecosignalements_unclosed`:
the SQL is `WHERE espaceco_signalement_status NOT IN (...)` over the
statuses of `OC_UNCLOSED_STATUSES`.  Under SQL three-valued logic a NULL
status makes `NOT IN` evaluate to NULL, so the row is not selected; a
non-null status is selected exactly when it is NOT a member of the list.
There is no condition on `espaceco_signalement_id`. -/
def get_issues_by_espacecosignalements_unclosed (table : Store) : Store :=
  table.filter (fun row =>
    match row.2.sig.espaceco_signalement_status with
    | none => false
    | some s => !(OC_UNCLOSED_STATUSES.contains s))

/-- Selection the specification's words describe for the Status Refresh
Loop ("all Issues whose report status is in an unclosed set ... and whose
report reference is set"), written for comparison with the selection the
code performs. -/
def specUnclosedSelect (table : Store) : Store :=
  table.filter (fun row =>
    (match row.2.sig.espaceco_signalement_status with
     | none => false
     | some s => OC_UNCLOSED_STATUSES.contains s)
    && row.2.sig.espaceco_signalement_id.isSome)

/-- Row filter of `get_issues_by_espacecosignalements_none_and_zicad_false`:
`WHERE espaceco_signalement_id is null AND NOT bduni_objet_zicad`.
Under SQL three-valued logic a NULL zicad flag makes `NOT` evaluate to
NULL, so the row is not selected; the flag must be stored false.  The
operation is a plain SELECT: it returns a selection of the store and
performs no write. -/
def get_issues_by_espacecosignalements_none_and_zicad_false (table : Store) : Store :=
  table.filter (fun row =>
    row.2.sig.espaceco_signalement_id.isNone
    && (match row.2.bduni_objet_zicad with
        | some b => !b
        | none => false))

/-- Outcome of the HTTP POST performed by `post_signalement`: either a
response with its status code and the optional integer `id` field of the
JSON body (`none` = field absent), or a transport-level failure raised
by `requests`. -/
inductive PostOutcome where
  | response (code : Nat) (idField : Option Int) (body : String)
  | transportFailure (msg : String)
deriving Repr, DecidableEq

/-- Exceptions `post_signalement` can raise: `EspaceCoException(str(req.json()))`
on a non-201 status code, a KeyError when the 201 body lacks `id`, and
the re-raised transport error. -/
inductive PostError where
  | espaceCo (body : String)
  | missingIdField
  | transport (msg : String)
deriving Repr, DecidableEq

/-- `osmosecracker_espacecollaboratifign.post_signalement`: `createdid`
starts as `None`; on a 201 response it is set to the body's `id` field
and returned, on any other status code `EspaceCoException` is raised,
and any error raised inside the `try` block propagates.  The success
value is `Option Int` mirroring the Python variable `createdid`. -/
def post_signalement : PostOutcome → Except PostError (Option Int)
  | PostOutcome.transportFailure msg => Except.error (PostError.transport msg)
  | PostOutcome.response code idField body =>
      if code = 201 then
        match idField with
        | some i => Except.ok (some i)
        | none => Except.error PostError.missingIdField
      else Except.error (PostError.espaceCo body)

/-- One row of the spatial service's clustering response
(`clustered_rows` in `osmosecracker_query_bduni.clustering`): the echoed
external key, the nullable cluster id, and the bounding geometry text and
centroid coordinates (read only when the cluster id is non-null; the
Python code passes them through `str`). -/
structure ClusterRow where
  core_id : String
  cluster_id : Option Int
  bounding_box : Option String
  bounding_center_lat : Option String
  bounding_center_lon : Option String
deriving Repr, DecidableEq

/-- Attachment performed by `clustering` for one response row on one
matching issue: the row's cluster id becomes the issue's cluster key;
when it is non-null a sketch payload is built from the row's bounding
geometry and centroid at fixed zoom `"17"`, otherwise cluster key and
sketch are cleared. -/
def clusteringAttach (row : ClusterRow) (issue : Issue) : Issue :=
  match row.cluster_id with
  | some cid =>
      { issue with
        cluster_id := some cid
        sketchcontent := some
          { desc := "Emprise du cluster"
            name := "Emprise du cluster"
            objType := "Polygone"
            geometry := pyStr row.bounding_box
            ctxLat := pyStr row.bounding_center_lat
            ctxLon := pyStr row.bounding_center_lon
            zoom := "17" } }
  | none => { issue with cluster_id := none, sketchcontent := none }

/-- `osmosecracker_query_bduni.clustering`, correlation part: for each
response row (in response order) the inner loop scans the input issues
and appends every issue whose `core_id` matches, after attaching the
row's cluster data. -/
def clustering (issues : List Issue) (rows : List ClusterRow) : List Issue :=
  rows.flatMap (fun row =>
    (issues.filter (fun issue => issue.core_id == row.core_id)).map
      (clusteringAttach row))

/-- Accumulator state of the report-emission loop in `main`
(lines 519-584): the carried cluster key (`cluster_id`), the most recent
signalement id (`signalementid`), the report counter, and the number of
`post_signalement` calls made so far (index into the id supply that
abstracts the remote service). -/
structure EmitState where
  cluster_id : Option Int
  signalementid : Option Int
  reportcounter : Nat
  postcount : Nat
deriving Repr, DecidableEq

/-- Both accumulators start as Python `None`. -/
def initEmitState : EmitState :=
  { cluster_id := none, signalementid := none, reportcounter := 0, postcount := 0 }

/-- Persistence block of the emission loop (lines 568-575): store the
signalement id, stamp the run-wide refresh timestamp, and set the status
to the run's report mode when the id is positive and to `None` otherwise. -/
def persistIssue (mode : String) (ts : Nat) (sid : Int) (i : Issue) : Issue :=
  { i with
    espaceco_signalement_id := some sid
    espaceco_signalement_status_refresh_timestamp := some ts
    espaceco_signalement_status := if 0 < sid then some mode else none }

/-- One iteration of the emission loop in `main` (lines 521-581).
`ids` abstracts the reporting service: the n-th `post_signalement` call
of the run returns `ids n`.  If the issue has a cluster key differing
from the carried one, a report is created and the key and id are
remembered; if the key equals the carried one, no service call is made
and `-abs(signalementid)` is stored; if the issue has no cluster key a
standalone report is created and the carried cluster key is left
untouched.  The `signalementid is not None` guard of line 568 protects
the persistence block; in the linked branch a `None` signalementid would
make Python raise a TypeError in `-abs(None)` (unreachable from
`initEmitState`), modelled as skipping the iteration. -/
def emitStep (ids : Nat → Int) (mode : String) (ts : Nat) (s : EmitState) (i : Issue) :
    EmitState × Issue :=
  match i.cluster_id with
  | some ck =>
      if some ck ≠ s.cluster_id then
        let r := ids s.postcount
        ({ cluster_id := some ck
           signalementid := some r
           reportcounter := s.reportcounter + 1
           postcount := s.postcount + 1 },
         persistIssue mode ts r i)
      else
        match s.signalementid with
        | some v =>
            let r : Int := -(v.natAbs : Int)
            ({ s with signalementid := some r }, persistIssue mode ts r i)
        | none => ({ s with signalementid := none }, i)
  | none =>
      let r := ids s.postcount
      ({ s with
         signalementid := some r
         reportcounter := s.reportcounter + 1
         postcount := s.postcount + 1 },
       persistIssue mode ts r i)

/-- The report-emission loop of `main`: a left-to-right traversal of the
cluster-ordered issue sequence, threading `EmitState` and returning the
final state together with the per-issue persisted records in sequence
order. -/
def emitLoop (ids : Nat → Int) (mode : String) (ts : Nat) :
    EmitState → List Issue → EmitState × List Issue
  | s, [] => (s, [])
  | s, i :: rest =>
      ((emitLoop ids mode ts (emitStep ids mode ts s i).1 rest).1,
       (emitStep ids mode ts s i).2 ::
         (emitLoop ids mode ts (emitStep ids mode ts s i).1 rest).2)

/-- The issues of the output sharing the cluster key `K`, in sequence
order. -/
def clusterFilter (K : Int) (l : List Issue) : List Issue :=
  l.filter (fun x => x.cluster_id == some K)

/-- Cluster-ordered sequences: the list is a succession of standalone
(null-key) issues and cluster blocks, where each block carries a single
non-null cluster key and no key is ever revisited once its block is
closed (`seen` collects the closed keys).  `ClusterRuns [] l` states that
all members of each non-null cluster key are adjacent in `l`. -/
inductive ClusterRuns : List Int → List Issue → Prop where
  | nil (seen : List Int) : ClusterRuns seen []
  | standalone (seen : List Int) (i : Issue) (l : List Issue)
      (hi : i.cluster_id = none) (h : ClusterRuns seen l) :
      ClusterRuns seen (i :: l)
  | block (seen : List Int) (K : Int) (b c : List Issue)
      (hK : K ∉ seen) (hb : ∀ x ∈ b, x.cluster_id = some K)
      (h : ClusterRuns (K :: seen) c) :
      ClusterRuns seen (b ++ c)

/-- Body of the status-refresh loop in `main` (lines 603-608) for one
selected issue, acting on the durable store.  `lookup` abstracts
`get_status_signalement` keyed by the exact argument the code passes,
namely the raw `espaceco_signalement_id` of the issue.  The returned
status and the run's refresh timestamp are written back through
`update_signalement` only when the lookup returned a status; a `None`
result leaves the store untouched. -/
def statusRefreshBody (lookup : Option Int → Option String) (ts : Nat)
    (store : Store) (i : Issue) : Store :=
  let st := lookup i.espaceco_signalement_id
  if st.isSome then
    match update_signalement
        { i with
          espaceco_signalement_status := st
          espaceco_signalement_status_refresh_timestamp := some ts } with
    | some cols => applyWrite store i.core_id cols
    | none => store
  else store

/-- The status-refresh loop of `main` over the selected issues, returning
the final store and the list of arguments passed to
`get_status_signalement`, in loop order. -/
def statusRefreshLoop (lookup : Option Int → Option String) (ts : Nat) :
    Store → List Issue → Store × List (Option Int)
  | store, [] => (store, [])
  | store, i :: rest =>
      ((statusRefreshLoop lookup ts (statusRefreshBody lookup ts store i) rest).1,
       i.espaceco_signalement_id ::
         (statusRefreshLoop lookup ts (statusRefreshBody lookup ts store i) rest).2)

/-! ## Helper lemmas and claim theorems -/

/-- C10: `post_signalement` either returns the `id` field of the JSON
response — exactly when the HTTP status code is 201 and the field is
present — or raises (`EspaceCoException` carrying the body on any other
status code, the transport error otherwise); it never returns `None`
despite its docstring, so a non-`None` result is guaranteed whenever the
call completes without raising. -/
theorem osmose_c10 (o : PostOutcome) :
    post_signalement o ≠ Except.ok none ∧
    (∀ i : Int, post_signalement o = Except.ok (some i) ↔
       ∃ body, o = PostOutcome.response 201 (some i) body) ∧
    (∀ code idField body, o = PostOutcome.response code idField body → code ≠ 201 →
       post_signalement o = Except.error (PostError.espaceCo body)) ∧
    (∀ msg, o = PostOutcome.transportFailure msg →
       post_signalement o = Except.error (PostError.transport msg)) := by
  cases o with
  | transportFailure msg =>
      refine ⟨by simp [post_signalement], ?_, ?_, ?_⟩
      · intro i; simp [post_signalement]
      · intro code idField body h; exact absurd h (by simp)
      · intro m h
        obtain rfl : msg = m := by injection h
        rfl
  | response code idField body =>
      by_cases h201 : code = 201
      · subst h201
        cases idField with
        | some i =>
            refine ⟨by simp [post_signalement], ?_, ?_, ?_⟩
            · intro j
              constructor
              · intro h
                simp only [post_signalement, if_pos rfl] at h
                injection h with h1
                injection h1 with h2
                subst h2
                exact ⟨body, rfl⟩
              · rintro ⟨b, hb⟩
                injection hb with h1 h2 h3
                injection h2 with h4
                subst h4
                simp [post_signalement]
            · intro c idf b h hne
              obtain rfl : 201 = c := by injection h
              exact absurd rfl hne
            · intro m h; exact absurd h (by simp)
        | none =>
            refine ⟨by simp [post_signalement], ?_, ?_, ?_⟩
            · intro j
              constructor
              · intro h; simp [post_signalement] at h
              · rintro ⟨b, hb⟩
                injection hb with h1 h2 h3
                exact absurd h2 (by simp)
            · intro c idf b h hne
              obtain rfl : 201 = c := by injection h
              exact absurd rfl hne
            · intro m h; exact absurd h (by simp)
      · refine ⟨by simp [post_signalement, h201], ?_, ?_, ?_⟩
        · intro j; simp [post_signalement, h201]
        · intro c idf b h hne
          injection h with h1 h2 h3
          subst h1; subst h2; subst h3
          simp [post_signalement, h201]
        · intro m h; exact absurd h (by simp)

/-- C10 witness: concrete outcomes evaluated through the theorem — a 404
response raises `EspaceCoException` with the body, a 201 response with
id 55 returns it. -/
theorem osmose_c10_witness :
    post_signalement (PostOutcome.response 404 none "err")
      = Except.error (PostError.espaceCo "err") ∧
    post_signalement (PostOutcome.response 201 (some 55) "ok")
      = Except.ok (some 55) := by
  refine ⟨(osmose_c10 _).2.2.1 404 none "err" rfl (by decide), ?_⟩
  exact ((osmose_c10 _).2.1 55).mpr ⟨"ok", rfl⟩

/-- C4 counterexample: the claim says the Status Refresh selection
returns exactly the rows whose status is IN `OC_UNCLOSED_STATUSES` with
a non-null reference.  On a row with status `"valid"` (a member of the
allow-list) and reference 5 the code selects nothing, while the
spec-described selection keeps the row; conversely a linked row whose
status cell holds the placeholder string `"None"` is selected by the
code but not by the spec-described selection. -/
theorem osmose_c4_counterexample :
    get_issues_by_espacecosignalements_unclosed
        [("a", ⟨⟨some 5, some "valid", some 0⟩, some false⟩)] = [] ∧
    specUnclosedSelect [("a", ⟨⟨some 5, some "valid", some 0⟩, some false⟩)]
      = [("a", ⟨⟨some 5, some "valid", some 0⟩, some false⟩)] ∧
    get_issues_by_espacecosignalements_unclosed
        [("b", ⟨⟨some (-5), some "None", some 0⟩, some false⟩)]
      = [("b", ⟨⟨some (-5), some "None", some 0⟩, some false⟩)] ∧
    specUnclosedSelect [("b", ⟨⟨some (-5), some "None", some 0⟩, some false⟩)] = [] := by
  refine ⟨?_, ?_, ?_, ?_⟩ <;> decide

/-- C4 amended: the Status Refresh selection returns exactly the stored
rows whose report status is non-null and NOT a member of
`OC_UNCLOSED_STATUSES` (the SQL is `status NOT IN (...)`); it imposes no
condition on the report reference. -/
theorem osmose_c4_amended (table : Store) (row : String × IssueRow) :
    row ∈ get_issues_by_espacecosignalements_unclosed table ↔
      row ∈ table ∧ ∃ s, row.2.sig.espaceco_signalement_status = some s ∧
        s ∉ OC_UNCLOSED_STATUSES := by
  unfold get_issues_by_espacecosignalements_unclosed
  rw [List.mem_filter]
  refine and_congr_right fun _ => ?_
  cases h : row.2.sig.espaceco_signalement_status with
  | none => simp [h]
  | some s => simp [h]

/-- C9: the Eligibility Filter returns exactly the stored rows whose
report reference is SQL NULL and whose zicad policy-exclusion flag is
stored false; rows with a NULL (unresolved) or true flag are excluded.
The operation is modelled as a pure selection of the store: it performs
no write. -/
theorem osmose_c9 (table : Store) (row : String × IssueRow) :
    row ∈ get_issues_by_espacecosignalements_none_and_zicad_false table ↔
      row ∈ table ∧ row.2.sig.espaceco_signalement_id = none ∧
        row.2.bduni_objet_zicad = some false := by
  unfold get_issues_by_espacecosignalements_none_and_zicad_false
  rw [List.mem_filter]
  refine and_congr_right fun _ => ?_
  cases h1 : row.2.sig.espaceco_signalement_id with
  | some v => simp [h1]
  | none =>
      cases h2 : row.2.bduni_objet_zicad with
      | none => simp [h1, h2]
      | some b => cases b <;> simp [h1, h2]

/-- C3 counterexample: an issue stored with the negative linkage id -42
is queried by the Status Refresh Loop with -42 itself, which differs
from the absolute value 42 the claim requires. -/
theorem osmose_c3_counterexample :
    (statusRefreshLoop (fun _ => none) 9 [] [mkIssue "n1" none (some (-42))]).2
      = [some (-42)] ∧
    (some (-42) : Option Int) ≠ some (((-42 : Int).natAbs : Int)) := by
  exact ⟨rfl, by decide⟩

/-- C3 amended: the Status Refresh Loop invokes the reporting service's
status lookup with the raw stored report reference of each processed
issue — no absolute value is taken — so an issue persisted with a
negative linkage id is queried with the negated id itself. -/
theorem osmose_c3_amended (lookup : Option Int → Option String) (ts : Nat)
    (store : Store) (issues : List Issue) :
    (statusRefreshLoop lookup ts store issues).2
      = issues.map (fun i => i.espaceco_signalement_id) := by
  induction issues generalizing store with
  | nil => rfl
  | cons i rest ih => simp [statusRefreshLoop, ih]

/-- C7: for an issue processed by the Status Refresh Loop, a `None`
lookup result leaves the durable store entirely unchanged (no write, so
neither the stored status nor the stored refresh timestamp moves and a
closed status is never downgraded by a lookup miss), while a returned
status is written back together with the run's fresh refresh timestamp. -/
theorem osmose_c7 (lookup : Option Int → Option String) (ts : Nat)
    (store : Store) (i : Issue) :
    (lookup i.espaceco_signalement_id = none →
       statusRefreshBody lookup ts store i = store) ∧
    (∀ st sid, lookup i.espaceco_signalement_id = some st →
       i.espaceco_signalement_id = some sid →
       statusRefreshBody lookup ts store i
         = applyWrite store i.core_id
             { espaceco_signalement_id := some sid
               espaceco_signalement_status := some st
               espaceco_signalement_status_refresh_timestamp := some ts }) := by
  constructor
  · intro h
    simp [statusRefreshBody, h]
  · intro st sid hl hsid
    rw [hsid] at hl
    simp [statusRefreshBody, hsid, hl, update_signalement, pyStr]

/-- C7 witness: on a store holding the row of key `"k7"`, a lookup miss
leaves the store unchanged, and a lookup returning `"valid"` rewrites
the row with the status and the fresh timestamp 9. -/
theorem osmose_c7_witness :
    statusRefreshBody (fun _ => none) 9
        [("k7", ⟨⟨some 7, some "submit", some 3⟩, none⟩)]
        (mkIssue "k7" none (some 7))
      = [("k7", ⟨⟨some 7, some "submit", some 3⟩, none⟩)] ∧
    statusRefreshBody (fun x => if x = some 7 then some "valid" else none) 9
        [("k7", ⟨⟨some 7, some "submit", some 3⟩, none⟩)]
        (mkIssue "k7" none (some 7))
      = applyWrite [("k7", ⟨⟨some 7, some "submit", some 3⟩, none⟩)] "k7"
          ⟨some 7, some "valid", some 9⟩ := by
  refine ⟨(osmose_c7 _ _ _ _).1 rfl, (osmose_c7 _ _ _ _).2 "valid" 7 rfl rfl⟩

/-- Durable effect of the persistence block: the UPDATE built by
`update_signalement` for an issue coming out of `persistIssue` writes
the id, the timestamp, and a status cell holding the mode string for a
positive id and the placeholder string `"None"` otherwise. -/
theorem update_signalement_persistIssue (mode : String) (ts : Nat) (r : Int) (i : Issue) :
    update_signalement (persistIssue mode ts r i)
      = some { espaceco_signalement_id := some r
               espaceco_signalement_status := some (if 0 < r then mode else "None")
               espaceco_signalement_status_refresh_timestamp := some ts } := by
  by_cases h : 0 < r <;> simp [persistIssue, update_signalement, pyStr, h]

/-- Every record produced by the emission loop from a state whose
signalement accumulator is set whenever its cluster accumulator is
(which holds for the initial state) went through the persistence block:
it carries the run timestamp, a stored id, and a status equal to the
run's mode when the id is positive and rendered as the string `"None"`
in the store otherwise. -/
theorem emitLoop_persisted (ids : Nat → Int) (mode : String) (ts : Nat) :
    ∀ (l : List Issue) (s : EmitState),
      (s.cluster_id = none ∨ s.signalementid.isSome) →
      ∀ x ∈ (emitLoop ids mode ts s l).2,
        ∃ r : Int, x.espaceco_signalement_id = some r ∧
          x.espaceco_signalement_status_refresh_timestamp = some ts ∧
          x.espaceco_signalement_status = (if 0 < r then some mode else none) ∧
          update_signalement x
            = some { espaceco_signalement_id := some r
                     espaceco_signalement_status := some (if 0 < r then mode else "None")
                     espaceco_signalement_status_refresh_timestamp := some ts } := by
  intro l
  induction l with
  | nil =>
      intro s _ x hx
      simp [emitLoop] at hx
  | cons i rest ih =>
      intro s hs x hx
      have hmem : x = (emitStep ids mode ts s i).2 ∨
          x ∈ (emitLoop ids mode ts (emitStep ids mode ts s i).1 rest).2 := by
        rw [emitLoop] at hx
        exact List.mem_cons.mp hx
      cases hI : i.cluster_id with
      | none =>
          have hstep : emitStep ids mode ts s i
              = ({ s with signalementid := some (ids s.postcount)
                          reportcounter := s.reportcounter + 1
                          postcount := s.postcount + 1 },
                 persistIssue mode ts (ids s.postcount) i) := by
            simp [emitStep, hI]
          rcases hmem with hx1 | hx2
          · subst hx1
            rw [hstep]
            exact ⟨ids s.postcount, by simp [persistIssue], by simp [persistIssue],
              by simp [persistIssue], update_signalement_persistIssue mode ts _ i⟩
          · rw [hstep] at hx2
            exact ih _ (Or.inr (by simp)) x hx2
      | some ck =>
          by_cases hc : some ck = s.cluster_id
          · have hsig : s.signalementid.isSome := by
              rcases hs with h0 | h1
              · rw [h0] at hc
                exact absurd hc (by simp)
              · exact h1
            obtain ⟨v, hv⟩ := Option.isSome_iff_exists.mp hsig
            have hstep : emitStep ids mode ts s i
                = ({ s with signalementid := some (-(v.natAbs : Int)) },
                   persistIssue mode ts (-(v.natAbs : Int)) i) := by
              simp [emitStep, hI, ← hc, hv]
            rcases hmem with hx1 | hx2
            · subst hx1
              rw [hstep]
              exact ⟨-(v.natAbs : Int), by simp [persistIssue], by simp [persistIssue],
                by simp [persistIssue], update_signalement_persistIssue mode ts _ i⟩
            · rw [hstep] at hx2
              exact ih _ (Or.inr (by simp)) x hx2
          · have hstep : emitStep ids mode ts s i
                = ({ cluster_id := some ck
                     signalementid := some (ids s.postcount)
                     reportcounter := s.reportcounter + 1
                     postcount := s.postcount + 1 },
                   persistIssue mode ts (ids s.postcount) i) := by
              rw [emitStep.eq_def]
              simp only [hI]
              rw [if_pos hc]
            rcases hmem with hx1 | hx2
            · subst hx1
              rw [hstep]
              exact ⟨ids s.postcount, by simp [persistIssue], by simp [persistIssue],
                by simp [persistIssue], update_signalement_persistIssue mode ts _ i⟩
            · rw [hstep] at hx2
              exact ih _ (Or.inr (by simp)) x hx2

/-- C5 counterexample: in a run over a two-member cluster, the second
(linked) member is persisted with reference -101 and its status column
receives the placeholder string `"None"` — the Python `None` interpolated
into the quoted SQL literal — not SQL NULL as the claim states. -/
theorem osmose_c5_counterexample :
    ((emitLoop (fun n => 101 + n) "submit" 7 initEmitState
        [mkIssue "m1" (some 1) none, mkIssue "m2" (some 1) none]).2.map
      (fun x => update_signalement x))
      = [some { espaceco_signalement_id := some 101
                espaceco_signalement_status := some "submit"
                espaceco_signalement_status_refresh_timestamp := some 7 },
         some { espaceco_signalement_id := some (-101)
                espaceco_signalement_status := some "None"
                espaceco_signalement_status_refresh_timestamp := some 7 }] ∧
    (some "None" : Option String) ≠ none := by
  exact ⟨by decide, by decide⟩

/-- C5 amended: every issue persisted by the emission loop in one run
carries the single run-wide refresh timestamp taken before the loop; its
persisted status equals the run's report mode when its persisted
reference is positive; when the reference is not positive the in-memory
status is `None` but the status column is written as the placeholder
string `"None"` (Python `None` formatted into the quoted SQL literal),
not SQL NULL. -/
theorem osmose_c5_amended (ids : Nat → Int) (mode : String) (ts : Nat)
    (l : List Issue) (x : Issue)
    (hx : x ∈ (emitLoop ids mode ts initEmitState l).2) :
    ∃ r : Int, x.espaceco_signalement_id = some r ∧
      x.espaceco_signalement_status_refresh_timestamp = some ts ∧
      x.espaceco_signalement_status = (if 0 < r then some mode else none) ∧
      update_signalement x
        = some { espaceco_signalement_id := some r
                 espaceco_signalement_status := some (if 0 < r then mode else "None")
                 espaceco_signalement_status_refresh_timestamp := some ts } :=
  emitLoop_persisted ids mode ts l initEmitState (Or.inl rfl) x hx

/-- C5 witness: the linked second member of the two-member cluster run,
evaluated through the theorem. -/
theorem osmose_c5_witness :
    ∃ r : Int,
      (persistIssue "submit" 7 (-101) (mkIssue "m2" (some 1) none)).espaceco_signalement_id
        = some r ∧
      (persistIssue "submit" 7 (-101)
          (mkIssue "m2" (some 1) none)).espaceco_signalement_status_refresh_timestamp
        = some 7 ∧
      (persistIssue "submit" 7 (-101) (mkIssue "m2" (some 1) none)).espaceco_signalement_status
        = (if 0 < r then some "submit" else none) ∧
      update_signalement (persistIssue "submit" 7 (-101) (mkIssue "m2" (some 1) none))
        = some { espaceco_signalement_id := some r
                 espaceco_signalement_status := some (if 0 < r then "submit" else "None")
                 espaceco_signalement_status_refresh_timestamp := some 7 } :=
  osmose_c5_amended (fun n => 101 + n) "submit" 7
    [mkIssue "m1" (some 1) none, mkIssue "m2" (some 1) none]
    (persistIssue "submit" 7 (-101) (mkIssue "m2" (some 1) none)) (by decide)

/-- C6 counterexample: with the reporting service returning the
out-of-contract id 0, the emission loop does not abort; it persists 0 as
the issue's report reference, with the status column written as the
string `"None"` since the positivity test fails. -/
theorem osmose_c6_counterexample :
    ((emitLoop (fun _ => 0) "submit" 7 initEmitState [mkIssue "d1" none none]).2.map
        (fun x => x.espaceco_signalement_id)) = [some 0] ∧
    ((emitLoop (fun _ => 0) "submit" 7 initEmitState [mkIssue "d1" none none]).2.map
        (fun x => update_signalement x))
      = [some { espaceco_signalement_id := some 0
                espaceco_signalement_status := some "None"
                espaceco_signalement_status_refresh_timestamp := some 7 }] := by
  exact ⟨rfl, by decide⟩

/-- C6 amended: the engine performs no validation of the id returned by
the creation call: a zero or negative id is persisted unchanged as the
issue's report reference, its status is set to `None` (the id fails the
positivity test, as for a linked member), and the traversal continues
instead of aborting. -/
theorem osmose_c6_amended (ids : Nat → Int) (mode : String) (ts : Nat)
    (s : EmitState) (i : Issue)
    (hi : i.cluster_id = none) (hz : ids s.postcount ≤ 0) :
    (emitStep ids mode ts s i).2.espaceco_signalement_id = some (ids s.postcount) ∧
    (emitStep ids mode ts s i).2.espaceco_signalement_status = none := by
  have h : ¬ (0 < ids s.postcount) := not_lt.mpr hz
  simp [emitStep, hi, persistIssue, h]

/-- C6 witness: creation id 0 on a standalone issue, evaluated through
the theorem. -/
theorem osmose_c6_witness :
    (emitStep (fun _ => 0) "submit" 7 initEmitState (mkIssue "d1" none none)).2.espaceco_signalement_id
      = some 0 ∧
    (emitStep (fun _ => 0) "submit" 7 initEmitState (mkIssue "d1" none none)).2.espaceco_signalement_status
      = none :=
  osmose_c6_amended (fun _ => 0) "submit" 7 initEmitState (mkIssue "d1" none none) rfl
    (by decide)

/-- C2 counterexample: run over [cluster 1, cluster 1 omitted, standalone,
cluster 1].  After the standalone issue the carried cluster key is still
`some 1` — not reset to unset as the claim states — and the following
issue bearing cluster key 1 is persisted with -202, the negation of the
standalone report's id 202, instead of receiving a fresh positive id. -/
theorem osmose_c2_counterexample :
    (emitLoop (fun n => 201 + n) "submit" 7 initEmitState
        [mkIssue "j1" (some 1) none, mkIssue "j2" none none]).1.cluster_id = some 1 ∧
    ((emitLoop (fun n => 201 + n) "submit" 7 initEmitState
        [mkIssue "j1" (some 1) none, mkIssue "j2" none none,
         mkIssue "j3" (some 1) none]).2.map (fun x => x.espaceco_signalement_id))
      = [some 201, some 202, some (-202)] := by
  exact ⟨rfl, rfl⟩

/-- C2 amended: processing a null-cluster-key issue leaves the carried
cluster key unchanged (it is not reset to unset); consequently a
subsequent issue bearing the same cluster key as the cluster that
preceded the standalone issue takes the linked branch and is persisted
with the negation of the most recently posted report's id — the
standalone report's — rather than being treated as the first member of a
new cluster. -/
theorem osmose_c2_amended (ids : Nat → Int) (mode : String) (ts : Nat)
    (s : EmitState) (i j : Issue) (K : Int)
    (hi : i.cluster_id = none) (hj : j.cluster_id = some K)
    (hs : s.cluster_id = some K) :
    (emitStep ids mode ts s i).1.cluster_id = some K ∧
    (emitStep ids mode ts (emitStep ids mode ts s i).1 j).2.espaceco_signalement_id
      = some (-(((ids s.postcount).natAbs : Int))) := by
  have h1 : (emitStep ids mode ts s i).1
      = { s with signalementid := some (ids s.postcount)
                 reportcounter := s.reportcounter + 1
                 postcount := s.postcount + 1 } := by
    simp [emitStep, hi]
  constructor
  · rw [h1]
    exact hs
  · rw [h1]
    simp [emitStep, hj, hs, persistIssue]

/-- C2 witness: concrete instance — carried key 1, standalone posts id
301, the following key-1 issue is persisted with -301. -/
theorem osmose_c2_witness :
    (emitStep (fun n => 300 + n) "submit" 7
        { cluster_id := some 1, signalementid := some 5, reportcounter := 1, postcount := 1 }
        (mkIssue "x1" none none)).1.cluster_id = some 1 ∧
    (emitStep (fun n => 300 + n) "submit" 7
        (emitStep (fun n => 300 + n) "submit" 7
          { cluster_id := some 1, signalementid := some 5, reportcounter := 1, postcount := 1 }
          (mkIssue "x1" none none)).1
        (mkIssue "y1" (some 1) none)).2.espaceco_signalement_id
      = some (-(((301 : Int).natAbs : Int))) :=
  osmose_c2_amended (fun n => 300 + n) "submit" 7
    { cluster_id := some 1, signalementid := some 5, reportcounter := 1, postcount := 1 }
    (mkIssue "x1" none none) (mkIssue "y1" (some 1) none) 1 rfl rfl rfl

/-- With pairwise-distinct external keys, the inner correlation scan of
`clustering` keeps at most one issue per response row: the filter over
the issue list collapses to the first (unique) match. -/
theorem filter_core_id_of_nodup (issues : List Issue) (k : String)
    (h : (issues.map (fun i => i.core_id)).Nodup) :
    issues.filter (fun i => i.core_id == k)
      = match issues.find? (fun i => i.core_id == k) with
        | some i => [i]
        | none => [] := by
  induction issues with
  | nil => rfl
  | cons i is ih =>
      rw [List.map_cons, List.nodup_cons] at h
      cases hik : (i.core_id == k) with
      | true =>
          have hik' : i.core_id = k := by simpa using hik
          have hnil : is.filter (fun x => x.core_id == k) = [] := by
            rw [List.filter_eq_nil_iff]
            intro x hx
            simp only [beq_iff_eq]
            intro hxk
            exact h.1 (List.mem_map.mpr ⟨x, hx, by rw [hxk, hik']⟩)
          simp [List.filter_cons, List.find?_cons, hik, hnil]
      | false =>
          simp [List.filter_cons, List.find?_cons, hik, ih h.2]

/-- C8: assuming pairwise-distinct external keys on the input (a data
model invariant), the correlation function `clustering` emits exactly
those input issues whose external key matches some response row, in the
exact order of the response rows: each row contributes its (unique)
matching issue with the row's cluster data attached via
`clusteringAttach` (cluster key := row's cluster id and, when that id is
non-null, a sketch built from the row's bounding geometry and centroid
at fixed zoom "17"), and a row without a matching issue — or an issue
absent from the response — contributes nothing, so the output may be
shorter than the input. -/
theorem osmose_c8 (issues : List Issue) (rows : List ClusterRow)
    (hkeys : (issues.map (fun i => i.core_id)).Nodup) :
    clustering issues rows
      = rows.filterMap (fun row =>
          (issues.find? (fun issue => issue.core_id == row.core_id)).map
            (clusteringAttach row)) := by
  unfold clustering
  induction rows with
  | nil => rfl
  | cons row rest ih =>
      rw [List.flatMap_cons, List.filterMap_cons,
        filter_core_id_of_nodup issues row.core_id hkeys]
      cases hfind : issues.find? (fun issue => issue.core_id == row.core_id) with
      | none => simpa using ih
      | some i => simpa using ih

/-- C8 witness: two issues `"a"`, `"b"`; the response lists `"b"` first
(clustered), then an unknown key `"zz"` (dropped), then `"a"`
(unclustered) — evaluated through the theorem. -/
theorem osmose_c8_witness :
    (([mkIssue "a" none none, mkIssue "b" none none].map (fun i => i.core_id)).Nodup) ∧
    clustering [mkIssue "a" none none, mkIssue "b" none none]
        [{ core_id := "b", cluster_id := some 3, bounding_box := some "POLY",
           bounding_center_lat := some "1.5", bounding_center_lon := some "2.5" },
         { core_id := "zz", cluster_id := none, bounding_box := none,
           bounding_center_lat := none, bounding_center_lon := none },
         { core_id := "a", cluster_id := none, bounding_box := none,
           bounding_center_lat := none, bounding_center_lon := none }]
      = [{ core_id := "b", cluster_id := some 3, bounding_box := some "POLY",
           bounding_center_lat := some "1.5", bounding_center_lon := some "2.5" },
         { core_id := "zz", cluster_id := none, bounding_box := none,
           bounding_center_lat := none, bounding_center_lon := none },
         { core_id := "a", cluster_id := none, bounding_box := none,
           bounding_center_lat := none, bounding_center_lon := none }].filterMap
          (fun row =>
            ([mkIssue "a" none none, mkIssue "b" none none].find?
                (fun issue => issue.core_id == row.core_id)).map
              (clusteringAttach row)) :=
  ⟨by decide, osmose_c8 _ _ (by decide)⟩

/-- The emission step never changes the cluster key carried by the issue
record itself: persistence only touches the report reference, status and
timestamp. -/
theorem emitStep_cluster_id (ids : Nat → Int) (mode : String) (ts : Nat)
    (s : EmitState) (i : Issue) :
    ((emitStep ids mode ts s i).2).cluster_id = i.cluster_id := by
  cases hI : i.cluster_id with
  | none => simp [emitStep, hI, persistIssue]
  | some ck =>
      by_cases hc : some ck = s.cluster_id
      · cases hv : s.signalementid with
        | some v => simp [emitStep, hI, ← hc, hv, persistIssue]
        | none => simp [emitStep, hI, ← hc, hv]
      · rw [emitStep.eq_def]
        simp only [hI]
        rw [if_pos hc]
        simp [persistIssue, hI]

/-- Splitting the emission loop across an append: final state. -/
theorem emitLoop_append_fst (ids : Nat → Int) (mode : String) (ts : Nat)
    (l₁ l₂ : List Issue) : ∀ s : EmitState,
    (emitLoop ids mode ts s (l₁ ++ l₂)).1
      = (emitLoop ids mode ts (emitLoop ids mode ts s l₁).1 l₂).1 := by
  induction l₁ with
  | nil => intro s; rfl
  | cons i rest ih =>
      intro s
      rw [List.cons_append, emitLoop, emitLoop]
      exact ih (emitStep ids mode ts s i).1

/-- Splitting the emission loop across an append: output sequence. -/
theorem emitLoop_append_snd (ids : Nat → Int) (mode : String) (ts : Nat)
    (l₁ l₂ : List Issue) : ∀ s : EmitState,
    (emitLoop ids mode ts s (l₁ ++ l₂)).2
      = (emitLoop ids mode ts s l₁).2
        ++ (emitLoop ids mode ts (emitLoop ids mode ts s l₁).1 l₂).2 := by
  induction l₁ with
  | nil => intro s; rfl
  | cons i rest ih =>
      intro s
      rw [List.cons_append, emitLoop, emitLoop]
      simp only [List.cons_append]
      rw [ih (emitStep ids mode ts s i).1]

/-- The emission loop preserves the sequence of cluster keys. -/
theorem emitLoop_cluster_ids (ids : Nat → Int) (mode : String) (ts : Nat) :
    ∀ (l : List Issue) (s : EmitState),
      ((emitLoop ids mode ts s l).2).map (fun x => x.cluster_id)
        = l.map (fun x => x.cluster_id) := by
  intro l
  induction l with
  | nil => intro s; rfl
  | cons i rest ih =>
      intro s
      rw [emitLoop]
      simp only [List.map_cons]
      rw [emitStep_cluster_id, ih]

/-- Issues of a segment avoiding the key `K` contribute nothing to the
`K`-filtered output. -/
theorem clusterFilter_emitLoop_eq_nil (ids : Nat → Int) (mode : String) (ts : Nat)
    (K : Int) (l : List Issue) (s : EmitState)
    (hl : ∀ x ∈ l, x.cluster_id ≠ some K) :
    clusterFilter K (emitLoop ids mode ts s l).2 = [] := by
  unfold clusterFilter
  rw [List.filter_eq_nil_iff]
  intro x hx
  have hmem : x.cluster_id ∈ (l.map (fun y => y.cluster_id)) := by
    rw [← emitLoop_cluster_ids ids mode ts l s]
    exact List.mem_map_of_mem _ hx
  obtain ⟨y, hy, hyx⟩ := List.mem_map.mp hmem
  simp only [beq_iff_eq]
  rw [← hyx]
  exact hl y hy

/-- Filtering at `K` keeps every persisted member of a `K`-keyed run. -/
theorem clusterFilter_map_persist (mode : String) (ts : Nat) (w : Int) (K : Int)
    (b : List Issue) (hb : ∀ y ∈ b, y.cluster_id = some K) :
    clusterFilter K (b.map (fun y => persistIssue mode ts w y))
      = b.map (fun y => persistIssue mode ts w y) := by
  unfold clusterFilter
  rw [List.filter_eq_self]
  intro a ha
  obtain ⟨y, hy, rfl⟩ := List.mem_map.mp ha
  simp [persistIssue, hb y hy]

/-- In a cluster-ordered sequence no issue carries a key that was
already closed (`seen`). -/
theorem clusterRuns_avoid_seen {seen : List Int} {l : List Issue}
    (h : ClusterRuns seen l) :
    ∀ x ∈ l, ∀ K ∈ seen, x.cluster_id ≠ some K := by
  induction h with
  | nil => intro x hx; simp at hx
  | standalone seen i l hi _ ih =>
      intro x hx K hK
      rcases List.mem_cons.mp hx with rfl | hx'
      · rw [hi]; simp
      · exact ih x hx' K hK
  | block seen K₀ b c hK₀ hb _ ih =>
      intro x hx K hK
      rcases List.mem_append.mp hx with hxb | hxc
      · rw [hb x hxb]
        intro hcontra
        injection hcontra with h'
        subst h'
        exact hK₀ hK
      · exact ih x hxc K (List.mem_cons_of_mem _ hK)

/-- Processing the remainder of an open cluster block: every member is
persisted with the (stable) negation `-abs` of the accumulator value,
and the carried cluster key stays that of the block. -/
theorem emitLoop_linked_run (ids : Nat → Int) (mode : String) (ts : Nat) (K : Int) :
    ∀ (b : List Issue) (s : EmitState) (v : Int),
      (∀ x ∈ b, x.cluster_id = some K) → s.cluster_id = some K →
      s.signalementid = some v →
      (emitLoop ids mode ts s b).2
          = b.map (fun x => persistIssue mode ts (-(v.natAbs : Int)) x) ∧
        (emitLoop ids mode ts s b).1.cluster_id = some K := by
  intro b
  induction b with
  | nil =>
      intro s v _ hs _
      exact ⟨rfl, hs⟩
  | cons x b' ih =>
      intro s v hb hs hv
      have hx : x.cluster_id = some K := hb x (List.mem_cons_self x b')
      have hstep : emitStep ids mode ts s x
          = ({ s with signalementid := some (-(v.natAbs : Int)) },
             persistIssue mode ts (-(v.natAbs : Int)) x) := by
        simp [emitStep, hx, hs, hv]
      have habs : (((-(v.natAbs : Int)).natAbs : Nat) : Int) = (v.natAbs : Int) := by
        simp
      obtain ⟨ih1, ih2⟩ := ih { s with signalementid := some (-(v.natAbs : Int)) }
        (-(v.natAbs : Int)) (fun y hy => hb y (List.mem_cons_of_mem _ hy))
        (by simpa using hs) rfl
      constructor
      · rw [emitLoop, hstep]
        simp only [List.map_cons]
        rw [ih1]
        simp only [habs]
      · rw [emitLoop, hstep]
        exact ih2

/-- `clusterFilter` drops a head whose key differs. -/
theorem clusterFilter_cons_of_neg (K : Int) (a : Issue) (t : List Issue)
    (h : (a.cluster_id == some K) = false) :
    clusterFilter K (a :: t) = clusterFilter K t := by
  simp [clusterFilter, List.filter_cons, h]

/-- `clusterFilter` keeps a head whose key matches. -/
theorem clusterFilter_cons_of_pos (K : Int) (a : Issue) (t : List Issue)
    (h : (a.cluster_id == some K) = true) :
    clusterFilter K (a :: t) = a :: clusterFilter K t := by
  simp [clusterFilter, List.filter_cons, h]

/-- `clusterFilter` distributes over append. -/
theorem clusterFilter_append (K : Int) (l₁ l₂ : List Issue) :
    clusterFilter K (l₁ ++ l₂) = clusterFilter K l₁ ++ clusterFilter K l₂ := by
  simp [clusterFilter, List.filter_append]

/-- Main invariant of the emission traversal: starting from a state
whose carried cluster key does not occur in the remaining cluster-ordered
sequence, every non-null cluster key of the output owns exactly one
report — its first member in sequence order holds the freshly created
positive id and every later member holds the negation of that id. -/
theorem emitLoop_cluster_blocks (ids : Nat → Int) (mode : String) (ts : Nat)
    (hpos : ∀ n, 0 < ids n) :
    ∀ {seen : List Int} {l : List Issue}, ClusterRuns seen l →
      ∀ s : EmitState,
        (∀ K, s.cluster_id = some K → ∀ x ∈ l, x.cluster_id ≠ some K) →
        ∀ (K : Int) (m : Issue) (rest : List Issue),
          clusterFilter K (emitLoop ids mode ts s l).2 = m :: rest →
          ∃ r : Int, 0 < r ∧ m.espaceco_signalement_id = some r ∧
            m.cluster_id = some K ∧
            ∀ x ∈ rest, x.espaceco_signalement_id = some (-r) := by
  intro seen l h
  induction h with
  | nil =>
      intro s _ K m rest hf
      simp [emitLoop, clusterFilter] at hf
  | standalone seen i l hi hrec ih =>
      intro s hcond K m rest hf
      have hstep : emitStep ids mode ts s i
          = ({ s with signalementid := some (ids s.postcount)
                      reportcounter := s.reportcounter + 1
                      postcount := s.postcount + 1 },
             persistIssue mode ts (ids s.postcount) i) := by
        simp [emitStep, hi]
      have h1 : (emitStep ids mode ts s i).1
          = { s with signalementid := some (ids s.postcount)
                     reportcounter := s.reportcounter + 1
                     postcount := s.postcount + 1 } := by
        rw [hstep]
      have h2 : (emitStep ids mode ts s i).2 = persistIssue mode ts (ids s.postcount) i := by
        rw [hstep]
      have hdrop : ((persistIssue mode ts (ids s.postcount) i).cluster_id == some K) = false := by
        simp [persistIssue, hi]
      rw [emitLoop, h1, h2, clusterFilter_cons_of_neg _ _ _ hdrop] at hf
      refine ih _ ?_ K m rest hf
      intro K' h' x hx
      exact hcond K' h' x (List.mem_cons_of_mem _ hx)
  | block seen K₀ b c hK₀ hb hrec ih =>
      intro s hcond K m rest hf
      cases b with
      | nil =>
          rw [List.nil_append] at hf
          refine ih s ?_ K m rest hf
          intro K' h' x hx
          exact hcond K' h' x (by simpa using hx)
      | cons x b' =>
          have hx : x.cluster_id = some K₀ := hb x (List.mem_cons_self x b')
          have hsK₀ : ¬ some K₀ = s.cluster_id := by
            intro hcontra
            exact hcond K₀ hcontra.symm x (by simp) hx
          have hstep : emitStep ids mode ts s x
              = ({ cluster_id := some K₀
                   signalementid := some (ids s.postcount)
                   reportcounter := s.reportcounter + 1
                   postcount := s.postcount + 1 },
                 persistIssue mode ts (ids s.postcount) x) := by
            rw [emitStep.eq_def]
            simp only [hx]
            rw [if_pos hsK₀]
          have h1 : (emitStep ids mode ts s x).1
              = { cluster_id := some K₀
                  signalementid := some (ids s.postcount)
                  reportcounter := s.reportcounter + 1
                  postcount := s.postcount + 1 } := by
            rw [hstep]
          have h2 : (emitStep ids mode ts s x).2
              = persistIssue mode ts (ids s.postcount) x := by
            rw [hstep]
          obtain ⟨hrun, hs2⟩ := emitLoop_linked_run ids mode ts K₀ b'
            { cluster_id := some K₀
              signalementid := some (ids s.postcount)
              reportcounter := s.reportcounter + 1
              postcount := s.postcount + 1 }
            (ids s.postcount) (fun y hy => hb y (List.mem_cons_of_mem _ hy)) rfl rfl
          have hcavoid : ∀ y ∈ c, y.cluster_id ≠ some K₀ :=
            fun y hy => clusterRuns_avoid_seen hrec y hy K₀ (List.mem_cons_self _ _)
          rw [List.cons_append, emitLoop, h1, h2, emitLoop_append_snd, hrun] at hf
          by_cases hKK : K = K₀
          · subst hKK
            have hkeep : ((persistIssue mode ts (ids s.postcount) x).cluster_id == some K) = true := by
              simp [persistIssue, hx]
            have houtc : clusterFilter K
                (emitLoop ids mode ts
                  (emitLoop ids mode ts
                    { cluster_id := some K
                      signalementid := some (ids s.postcount)
                      reportcounter := s.reportcounter + 1
                      postcount := s.postcount + 1 } b').1 c).2 = [] :=
              clusterFilter_emitLoop_eq_nil ids mode ts K c _ hcavoid
            rw [clusterFilter_cons_of_pos _ _ _ hkeep, clusterFilter_append, houtc,
              clusterFilter_map_persist mode ts _ K b'
                (fun y hy => hb y (List.mem_cons_of_mem _ hy)),
              List.append_nil] at hf
            injection hf with hm hrest
            refine ⟨ids s.postcount, hpos _, ?_, ?_, ?_⟩
            · rw [← hm]
              simp [persistIssue]
            · rw [← hm]
              simp [persistIssue, hx]
            · intro y hy
              rw [← hrest] at hy
              obtain ⟨z, hz, rfl⟩ := List.mem_map.mp hy
              have habs : ((ids s.postcount).natAbs : Int) = ids s.postcount :=
                Int.natAbs_of_nonneg (le_of_lt (hpos _))
              simp [persistIssue, habs]
          · have hdrophead : ((persistIssue mode ts (ids s.postcount) x).cluster_id == some K) = false := by
              simp only [persistIssue, hx]
              simp only [beq_eq_false_iff_ne, ne_eq, Option.some.injEq]
              exact fun hcontra => hKK hcontra.symm
            have hdropmap : clusterFilter K
                (b'.map (fun y => persistIssue mode ts (-(((ids s.postcount).natAbs : Nat) : Int)) y)) = [] := by
              unfold clusterFilter
              rw [List.filter_eq_nil_iff]
              intro a ha
              obtain ⟨z, hz, rfl⟩ := List.mem_map.mp ha
              simp only [persistIssue, hb z (List.mem_cons_of_mem _ hz)]
              simp only [beq_eq_false_iff_ne, ne_eq, Option.some.injEq, Bool.not_eq_true]
              exact fun hcontra => hKK hcontra.symm
            rw [clusterFilter_cons_of_neg _ _ _ hdrophead, clusterFilter_append, hdropmap,
              List.nil_append] at hf
            refine ih _ ?_ K m rest hf
            intro K' h' y hy
            rw [hs2] at h'
            injection h' with h''
            subst h''
            exact hcavoid y hy

/-- C1: for an emission run over a cluster-ordered sequence in which all
members of each non-null cluster key are adjacent (`ClusterRuns []`) and
a reporting service honouring its positive-id contract, after the loop
completes the issues sharing a non-null cluster key `K` satisfy: the
first member in sequence order (head of the `K`-filtered output) holds a
positive persisted reference `r`, and every other member holds exactly
`-r`, the negation of that same owner's id — so exactly one member of
the cluster holds a positive reference. -/
theorem osmose_c1 (ids : Nat → Int) (mode : String) (ts : Nat) (issues : List Issue)
    (hadj : ClusterRuns [] issues) (hpos : ∀ n, 0 < ids n)
    (K : Int) (m : Issue) (rest : List Issue)
    (hf : clusterFilter K (emitLoop ids mode ts initEmitState issues).2 = m :: rest) :
    ∃ r : Int, 0 < r ∧ m.espaceco_signalement_id = some r ∧ m.cluster_id = some K ∧
      ∀ x ∈ rest, x.espaceco_signalement_id = some (-r) :=
  emitLoop_cluster_blocks ids mode ts hpos hadj initEmitState
    (fun K' h' => absurd h' (by simp [initEmitState])) K m rest hf

/-- C1 witness: run over the adjacent sequence
[cluster 1, cluster 1, standalone, cluster 2] with ids 101, 102, 103 —
cluster 1's first member owns +101, its second member holds -101. -/
theorem osmose_c1_witness :
    ∃ r : Int, 0 < r ∧
      (persistIssue "submit" 7 101 (mkIssue "c1" (some 1) none)).espaceco_signalement_id
        = some r ∧
      (persistIssue "submit" 7 101 (mkIssue "c1" (some 1) none)).cluster_id = some 1 ∧
      ∀ x ∈ [persistIssue "submit" 7 (-101) (mkIssue "c2" (some 1) none)],
        x.espaceco_signalement_id = some (-r) :=
  osmose_c1 (fun n => 101 + n) "submit" 7
    [mkIssue "c1" (some 1) none, mkIssue "c2" (some 1) none,
     mkIssue "c3" none none, mkIssue "c4" (some 2) none]
    (ClusterRuns.block [] 1 [mkIssue "c1" (some 1) none, mkIssue "c2" (some 1) none]
      [mkIssue "c3" none none, mkIssue "c4" (some 2) none]
      (by decide) (by decide)
      (ClusterRuns.standalone [1] (mkIssue "c3" none none) [mkIssue "c4" (some 2) none] rfl
        (ClusterRuns.block [1] 2 [mkIssue "c4" (some 2) none] []
          (by decide) (by decide) (ClusterRuns.nil [2, 1]))))
    (fun n => by show (0 : Int) < 101 + (n : Int); omega) 1
    (persistIssue "submit" 7 101 (mkIssue "c1" (some 1) none))
    [persistIssue "submit" 7 (-101) (mkIssue "c2" (some 1) none)]
    (by decide)
